import Mathlib

/-!
Verification of the kloud-notes note service.

Shallow embedding of the note lifecycle and password-protection logic of the
kloud-notes repository: the data model (`Note`, the `notes` table), the
request-validation schemas (`src/lib/validation.ts`), the security helpers
(`src/lib/security.ts`), the utility functions (`src/lib/utils.ts`) and the
four API route handlers (`POST /api/notes`, `GET`/`PATCH /api/notes/[code]`,
`POST /api/verify`).

Modelling conventions:
- The Supabase `notes` table is a `List Note`; `.eq('short_code', c).single()`
  is `List.find?` on the `short_code` field.
- External collaborators (bcrypt's `hash`/`compare`, nanoid's random stream,
  database-assigned ids and timestamps) enter as function parameters, so the
  handlers stay pure and every theorem quantifies over them.
- JavaScript truthiness of the nullable string fields (`password_hash`,
  `password`) is modelled by `truthy`: a value is truthy iff it is present and
  not the empty string.
- Rate limiting is outside the modelled core (the spec excludes it); each
  handler is embedded from the point after its rate-limit gate.
- The `POST /api/notes` handler takes two store snapshots, `checkDb` (seen by
  its availability probes) and `insertDb` (seen by the final insert), so the
  check-then-insert race is expressible; sequential execution is the special
  case `checkDb = insertDb`.
-/

namespace KloudNotes

/-! ## Data model (`notes` table, `src/types/note.ts`) -/

/-- A row of the `notes` table: id, unique short code, content, optional
bcrypt password hash, creation and update timestamps. -/
structure Note where
  id : String
  short_code : String
  content : String
  password_hash : Option String
  created_at : String
  updated_at : String
deriving Repr, DecidableEq

/-- The public shape returned to clients (`toPublicNote`'s result type): the
password hash is replaced by the derived boolean `has_password`. -/
structure PublicNote where
  id : String
  short_code : String
  content : String
  has_password : Bool
  created_at : String
  updated_at : String
deriving Repr, DecidableEq

/-- JavaScript truthiness of an optional string: `undefined`/`null` and the
empty string are falsy, every other string is truthy. -/
def truthy : Option String → Bool
  | none => false
  | some s => s ≠ ""

/-- The database is the list of rows of the `notes` table. -/
abbrev Db := List Note

/-- `.from('notes').select('*').eq('short_code', code).single()`. -/
def dbFind (db : Db) (code : String) : Option Note :=
  List.find? (fun n => n.short_code == code) db

/-- The existence probe used by the allocator and the availability checks. -/
def codeExists (db : Db) (code : String) : Bool :=
  (dbFind db code).isSome

/-- The store's unique constraint on `short_code` (schema:
`short_code TEXT NOT NULL UNIQUE`): insert fails with a uniqueness violation
when the code is already present, otherwise appends the row. -/
def dbInsert (db : Db) (n : Note) : Option Db :=
  if codeExists db n.short_code then none else some (db ++ [n])

/-- Single-row update keyed by `short_code` (`.update(...).eq('short_code', code)`). -/
def dbUpdate (db : Db) (code : String) (n : Note) : Db :=
  List.map (fun m => if m.short_code == code then n else m) db

/-! ## Constants (`src/lib/constants.ts`) -/

def SHORT_CODE_MIN_LENGTH : Nat := 6
def SHORT_CODE_MAX_LENGTH : Nat := 8
def SHORT_CODE_CUSTOM_MAX_LENGTH : Nat := 50
def SHORT_CODE_GENERATION_ATTEMPTS : Nat := 5
def NOTE_MAX_SIZE_BYTES : Nat := 1024 * 1024
def NOTE_MAX_SIZE_CHARS : Nat := 100000
def PASSWORD_MIN_LENGTH : Nat := 4
def PASSWORD_MAX_LENGTH : Nat := 100

/-! ## Utilities (`src/lib/utils.ts`) -/

/-- The URL-safe alphabet of the `nanoid` library (its exported
`urlAlphabet`): 64 symbols drawn from `A-Za-z0-9_-`. -/
def urlAlphabet : List Char :=
  "useandom-26T198340PX75pxJACKVERYMINDBUSHWOLF_GQZbfghjklqvwyzrict".toList

/-- Model of the `nanoid` library call `nanoid(size)`: `size` characters, each
drawn from `urlAlphabet` by the random stream `rnd` (one 6-bit draw per
position). -/
def nanoid (rnd : Nat → Nat) (size : Nat) : String :=
  String.mk (List.map (fun i => urlAlphabet.getD (rnd i % 64) 'a') (List.range size))

/-- `generateShortCode(length = SHORT_CODE.MAX_LENGTH)`: `nanoid(length)`. -/
def generateShortCode (rnd : Nat → Nat) (length : Nat := SHORT_CODE_MAX_LENGTH) : String :=
  nanoid rnd length

/-- The character class `[a-zA-Z0-9_-]` of the short-code regexes. -/
def isCodeChar (c : Char) : Bool :=
  (('a' ≤ c && c ≤ 'z') || ('A' ≤ c && c ≤ 'Z') || ('0' ≤ c && c ≤ '9')
    || c == '_' || c == '-')

/-- `toPublicNote(note)`: exposes `has_password = !!note.password_hash` and
drops the hash itself. -/
def toPublicNote (note : Note) : PublicNote :=
  { id := note.id
    short_code := note.short_code
    content := note.content
    has_password := truthy note.password_hash
    created_at := note.created_at
    updated_at := note.updated_at }

/-! ## Security (`src/lib/security.ts`) -/

/-- Outcome of the external `bcrypt.compare(password, hash)` call: either a
boolean answer, or a thrown error (e.g. on a malformed stored hash). -/
inductive BcryptOutcome where
  | ok (b : Bool)
  | err
deriving Repr, DecidableEq

/-- `verifyPassword(password, hash)`: `bcrypt.compare` inside `try/catch`;
any thrown error is caught and turned into `false`. -/
def verifyPassword (compare : String → String → BcryptOutcome)
    (password hash : String) : Bool :=
  match compare password hash with
  | .ok b => b
  | .err => false

/-! ## Validation (`src/lib/validation.ts`) -/

/-- The parsed body of `POST /api/notes` (`createNoteSchema`'s object shape). -/
structure CreateBody where
  content : String
  password : Option String
  customCode : Option String
deriving Repr, DecidableEq

/-- `createNoteSchema`'s `content` field: min 1 char, max `NOTE.MAX_SIZE_CHARS`
chars, UTF-8 byte size at most `NOTE.MAX_SIZE_BYTES`. -/
def validContent (s : String) : Bool :=
  1 ≤ s.length && s.length ≤ NOTE_MAX_SIZE_CHARS && s.utf8ByteSize ≤ NOTE_MAX_SIZE_BYTES

/-- `createNoteSchema`'s optional `password` field: length in
`[PASSWORD.MIN_LENGTH, PASSWORD.MAX_LENGTH]` when present. -/
def validPasswordField : Option String → Bool
  | none => true
  | some p => PASSWORD_MIN_LENGTH ≤ p.length && p.length ≤ PASSWORD_MAX_LENGTH

/-- `createNoteSchema`'s optional `customCode` field: length in
`[SHORT_CODE.MIN_LENGTH, SHORT_CODE.CUSTOM_MAX_LENGTH]` and matching
`/^[a-zA-Z0-9_-]+$/` when present. -/
def validCustomCode : Option String → Bool
  | none => true
  | some c =>
      SHORT_CODE_MIN_LENGTH ≤ c.length && c.length ≤ SHORT_CODE_CUSTOM_MAX_LENGTH
        && c.toList.all isCodeChar

/-- `createNoteSchema.safeParse` succeeds iff every field validates. -/
def createNoteSchemaOk (b : CreateBody) : Bool :=
  validContent b.content && validPasswordField b.password && validCustomCode b.customCode

/-- The parsed body of `POST /api/verify` (`verifyPasswordSchema`): both
fields required, min 1 char each. -/
structure VerifyBody where
  shortCode : String
  password : String
deriving Repr, DecidableEq

/-- `verifyPasswordSchema.safeParse` succeeds iff both fields are non-empty. -/
def verifyPasswordSchemaOk (b : VerifyBody) : Bool :=
  1 ≤ b.shortCode.length && 1 ≤ b.password.length

/-- The parsed body of `PATCH /api/notes/[code]`.

Modelled from the spec: `updateNoteSchema` itself is not among the source
files (only its import and the destructuring
`const { content, password } = validation.data` in the PATCH handler are);
per the spec's `PATCH /notes/{code}` interface the body carries optional
`content` and `password` fields, with the same per-field bounds as
`createNoteSchema`. -/
structure UpdateBody where
  content : Option String
  password : Option String
deriving Repr, DecidableEq

/-- Modelled from the spec: validation of the `PATCH` body — each supplied
field obeys the same bound as in `createNoteSchema`. -/
def updateNoteSchemaOk (b : UpdateBody) : Bool :=
  (match b.content with | none => true | some c => validContent c)
    && validPasswordField b.password

/-! ## `GET /api/notes/[code]` (`src/app/api/notes/[code]/route.ts`) -/

/-- Outcome of the fetch handler, after its rate-limit gate. -/
inductive FetchResult where
  | badRequest                -- 400, missing code
  | notFound                  -- 404
  | ok (note : PublicNote)    -- 200
deriving Repr, DecidableEq

/-- The `GET` handler: look up by short code; if the note is
password-protected return `toPublicNote` with the content blanked, otherwise
return `toPublicNote` unchanged. -/
def getNote (db : Db) (code : String) : FetchResult :=
  if code = "" then .badRequest
  else
    match dbFind db code with
    | none => .notFound
    | some note =>
        if truthy note.password_hash then
          .ok { toPublicNote note with content := "" }
        else
          .ok (toPublicNote note)

/-! ## `PATCH /api/notes/[code]` (`src/app/api/notes/[code]/route.ts`) -/

/-- Outcome of the update handler, after its rate-limit gate. -/
inductive UpdateOutcome where
  | badRequest                -- 400, missing code or validation failure
  | notFound                  -- 404
  | unauthorized              -- 401, 'Invalid password'
  | ok (note : PublicNote)    -- 200
deriving Repr, DecidableEq

/-- The `PATCH` handler. `verify` is `verifyPassword` partially applied to the
bcrypt comparator, `hash` is `hashPassword`, `now` is the `updated_at`
timestamp the store's trigger assigns. Returns the outcome and the store
after the request. Mirrors the handler's order: validate body, fetch, the
password gate `if (existingNote.password_hash && password)`, the hash choice
`password && !existingNote.password_hash ? hash(password) : existing hash`,
then the row update. -/
def patchNote (verify : String → String → Bool) (hash : String → String)
    (now : String) (db : Db) (code : String) (body : UpdateBody) :
    UpdateOutcome × Db :=
  if code = "" then (.badRequest, db)
  else if !updateNoteSchemaOk body then (.badRequest, db)
  else
    match dbFind db code with
    | none => (.notFound, db)
    | some existingNote =>
        if truthy existingNote.password_hash && truthy body.password
            && !verify (body.password.getD "") (existingNote.password_hash.getD "") then
          (.unauthorized, db)
        else
          let passwordHash : Option String :=
            if truthy body.password && !truthy existingNote.password_hash then
              some (hash (body.password.getD ""))
            else existingNote.password_hash
          let updatedNote : Note :=
            { existingNote with
                content := body.content.getD existingNote.content
                password_hash := passwordHash
                updated_at := now }
          (.ok (toPublicNote updatedNote), dbUpdate db code updatedNote)

/-! ## `POST /api/verify` (`src/app/api/verify/route.ts`) -/

/-- Outcome of the verify handler, after its rate-limit gate. -/
inductive VerifyResult where
  | badRequest                -- 400, validation failure
  | notFound                  -- 404
  | notProtected              -- 400, 'This note is not password protected'
  | invalid                   -- 401, {valid:false} after the fixed delay
  | ok (note : PublicNote)    -- 200, {valid:true, note}
deriving Repr, DecidableEq

/-- The `POST /api/verify` handler: validate, look up, reject unprotected
notes, verify via `verifyPassword`; a failed verification yields
`{valid:false}`/401 (after a fixed 1s delay), success returns the full public
note. -/
def postVerify (compare : String → String → BcryptOutcome)
    (db : Db) (body : VerifyBody) : VerifyResult :=
  if !verifyPasswordSchemaOk body then .badRequest
  else
    match dbFind db body.shortCode with
    | none => .notFound
    | some note =>
        if !truthy note.password_hash then .notProtected
        else if !verifyPassword compare body.password (note.password_hash.getD "") then
          .invalid
        else
          .ok (toPublicNote note)

/-! ## `POST /api/notes` (`src/app/api/notes/route.ts`) -/

/-- Outcome of the create handler, after its rate-limit gate. -/
inductive CreateOutcome where
  | validationError                -- 400
  | codeTaken                      -- 409, 'This custom code is already in use'
  | allocationExhausted            -- 500, 'Failed to generate unique short code'
  | storeFailure                   -- 500, 'Failed to create note'
  | created (shortCode : String)   -- 201, {shortCode, url}
deriving Repr, DecidableEq

/-- Result of the create handler: outcome, the list of short codes probed
against the store (the `.select('id').eq('short_code', _)` existence checks),
and the store after the request. -/
structure CreateResult where
  outcome : CreateOutcome
  probes : List String
  db : Db
deriving Repr, DecidableEq

/-- The generation loop of the `POST` handler:
`while (attempts < GENERATION_ATTEMPTS) { shortCode = generateShortCode();
if (!existing) break; attempts++ }`, followed by
`if (attempts >= GENERATION_ATTEMPTS) return 500`. `gen i` is the code
produced by the `(i+1)`-th `generateShortCode()` call. Returns the chosen
code (`none` when all attempts collide) and the probes issued. -/
def allocShortCode (gen : Nat → String) (checkDb : Db) (attempts : Nat) :
    Option String × List String :=
  if attempts < SHORT_CODE_GENERATION_ATTEMPTS then
    let c := gen attempts
    if codeExists checkDb c then
      let r := allocShortCode gen checkDb (attempts + 1)
      (r.1, c :: r.2)
    else
      (some c, [c])
  else
    (none, [])
termination_by SHORT_CODE_GENERATION_ATTEMPTS - attempts

/-- The `POST /api/notes` handler. `gen` is the stream of generated codes,
`hash` is `hashPassword`, `newId`/`now` are the id and timestamp the store
assigns to the inserted row. `checkDb` is the store state seen by the
availability probes, `insertDb` the state seen by the insert (they differ
exactly when a concurrent writer slips between check and insert). Mirrors the
handler: validate; resolve the short code (generation loop, or custom-code
availability check answering 409 when taken); hash the password if truthy;
insert, answering a generic 500 on any insert error. -/
def postNotes (gen : Nat → String) (hash : String → String)
    (newId now : String) (checkDb insertDb : Db) (body : CreateBody) :
    CreateResult :=
  if !createNoteSchemaOk body then
    { outcome := .validationError, probes := [], db := insertDb }
  else
    let resolved : Option String × List String :=
      if !truthy body.customCode then
        allocShortCode gen checkDb 0
      else
        let cc := body.customCode.getD ""
        if codeExists checkDb cc then (none, [cc]) else (some cc, [cc])
    match resolved.1 with
    | none =>
        if !truthy body.customCode then
          { outcome := .allocationExhausted, probes := resolved.2, db := insertDb }
        else
          { outcome := .codeTaken, probes := resolved.2, db := insertDb }
    | some shortCode =>
        let passwordHash : Option String :=
          if truthy body.password then some (hash (body.password.getD "")) else none
        let row : Note :=
          { id := newId, short_code := shortCode, content := body.content
            password_hash := passwordHash, created_at := now, updated_at := now }
        match dbInsert insertDb row with
        | none => { outcome := .storeFailure, probes := resolved.2, db := insertDb }
        | some db' => { outcome := .created shortCode, probes := resolved.2, db := db' }

/-! ## Helper lemmas -/

/-- Every character of nanoid's URL alphabet lies in the class `[a-zA-Z0-9_-]`. -/
lemma urlAlphabet_all_codeChar : urlAlphabet.all isCodeChar = true := by decide

/-- nanoid's URL alphabet has 64 symbols. -/
lemma urlAlphabet_length : urlAlphabet.length = 64 := by decide

/-- Any 6-bit draw indexes a character of the class `[a-zA-Z0-9_-]`. -/
lemma isCodeChar_urlAlphabet_getD (k : Nat) :
    isCodeChar (urlAlphabet.getD (k % 64) 'a') = true := by
  have h : ∀ m : Fin 64, isCodeChar (urlAlphabet.getD m.val 'a') = true := by decide
  exact h ⟨k % 64, Nat.mod_lt _ (by omega)⟩

/-- The row found by short code carries that short code. -/
lemma dbFind_short_code {db : Db} {code : String} {n : Note}
    (h : dbFind db code = some n) : n.short_code = code := by
  have := List.find?_some h
  simpa using this

/-- After a keyed single-row update, looking up the key finds the new row. -/
lemma dbFind_dbUpdate_self {db : Db} {code : String} {m n : Note}
    (hfind : dbFind db code = some m) (hn : n.short_code = code) :
    dbFind (dbUpdate db code n) code = some n := by
  induction db with
  | nil => simp [dbFind] at hfind
  | cons a t ih =>
    unfold dbFind dbUpdate at *
    by_cases ha : (a.short_code == code) = true
    · have hn' : (n.short_code == code) = true := by simpa using hn
      rw [List.map_cons, if_pos ha]
      exact List.find?_cons_of_pos _ hn'
    · have ha' : (a.short_code == code) = false := by simpa using ha
      rw [List.map_cons, if_neg (by simp [ha'])]
      rw [List.find?_cons_of_neg]
      · rw [List.find?_cons_of_neg] at hfind
        · exact ih hfind
        · simp [ha']
      · simp [ha']

/-- Looking up a fresh code after a successful insert finds the inserted row. -/
lemma dbFind_dbInsert_self {db db' : Db} {n : Note}
    (h : dbInsert db n = some db') : dbFind db' n.short_code = some n := by
  unfold dbInsert at h
  by_cases he : codeExists db n.short_code = true
  · simp [he] at h
  · rw [if_neg he] at h
    cases h
    have hnone : dbFind db n.short_code = none := by
      unfold codeExists at he
      exact Option.not_isSome_iff_eq_none.mp (by simpa using he)
    unfold dbFind at *
    rw [List.find?_append, hnone]
    simp [List.find?]

/-- The generation loop does nothing once the attempt counter has reached
the bound. -/
lemma allocShortCode_stop (gen : Nat → String) (db : Db) (a : Nat)
    (h : ¬ a < SHORT_CODE_GENERATION_ATTEMPTS) :
    allocShortCode gen db a = (none, []) := by
  unfold allocShortCode
  rw [if_neg h]

/-- One colliding iteration of the generation loop. -/
lemma allocShortCode_hit (gen : Nat → String) (db : Db) (a : Nat)
    (h : a < SHORT_CODE_GENERATION_ATTEMPTS) (he : codeExists db (gen a) = true) :
    allocShortCode gen db a =
      ((allocShortCode gen db (a + 1)).1, gen a :: (allocShortCode gen db (a + 1)).2) := by
  rw [allocShortCode]
  simp [h, he]

/-- One successful iteration of the generation loop. -/
lemma allocShortCode_miss (gen : Nat → String) (db : Db) (a : Nat)
    (h : a < SHORT_CODE_GENERATION_ATTEMPTS) (he : codeExists db (gen a) = false) :
    allocShortCode gen db a = (some (gen a), [gen a]) := by
  rw [allocShortCode]
  simp [h, he]

/-- The generation loop probes the store at most once per remaining attempt. -/
lemma allocShortCode_probes_le (gen : Nat → String) (db : Db) :
    ∀ k a, SHORT_CODE_GENERATION_ATTEMPTS - a ≤ k →
      (allocShortCode gen db a).2.length ≤ SHORT_CODE_GENERATION_ATTEMPTS - a := by
  intro k
  induction k with
  | zero =>
    intro a ha
    rw [allocShortCode_stop gen db a (by omega)]
    simp
  | succ k ih =>
    intro a ha
    by_cases h : a < SHORT_CODE_GENERATION_ATTEMPTS
    · by_cases he : codeExists db (gen a) = true
      · rw [allocShortCode_hit gen db a h he]
        have := ih (a + 1) (by omega)
        simp only [List.length_cons]
        omega
      · rw [allocShortCode_miss gen db a h (by simpa using he)]
        simp only [List.length_cons, List.length_nil]
        omega
    · rw [allocShortCode_stop gen db a h]
      simp

/-- The generation loop comes back empty-handed exactly when every remaining
candidate collides with an existing code. -/
lemma allocShortCode_none_iff (gen : Nat → String) (db : Db) :
    ∀ k a, SHORT_CODE_GENERATION_ATTEMPTS - a ≤ k →
      ((allocShortCode gen db a).1 = none ↔
        ∀ i, a ≤ i → i < SHORT_CODE_GENERATION_ATTEMPTS →
          codeExists db (gen i) = true) := by
  intro k
  induction k with
  | zero =>
    intro a ha
    rw [allocShortCode_stop gen db a (by omega)]
    constructor
    · intro _ i hai hi
      exact absurd hi (by omega)
    · intro _
      rfl
  | succ k ih =>
    intro a ha
    by_cases h : a < SHORT_CODE_GENERATION_ATTEMPTS
    · by_cases he : codeExists db (gen a) = true
      · rw [allocShortCode_hit gen db a h he]
        simp only
        rw [ih (a + 1) (by omega)]
        constructor
        · intro hall i hai hi
          rcases Nat.eq_or_lt_of_le hai with rfl | hlt
          · exact he
          · exact hall i (by omega) hi
        · intro hall i hai hi
          exact hall i (by omega) hi
      · have he' : codeExists db (gen a) = false := by simpa using he
        rw [allocShortCode_miss gen db a h he']
        simp only
        constructor
        · intro hc
          exact absurd hc (by simp)
        · intro hall
          exact absurd (hall a le_rfl h) (by simp [he'])
    · rw [allocShortCode_stop gen db a h]
      constructor
      · intro _ i hai hi
        exact absurd hi (by omega)
      · intro _
        rfl

/-- The generation loop returns the first candidate that is free in the
store. -/
lemma allocShortCode_first (gen : Nat → String) (db : Db) :
    ∀ k a i, SHORT_CODE_GENERATION_ATTEMPTS - a ≤ k → a ≤ i →
      i < SHORT_CODE_GENERATION_ATTEMPTS →
      codeExists db (gen i) = false →
      (∀ j, a ≤ j → j < i → codeExists db (gen j) = true) →
      (allocShortCode gen db a).1 = some (gen i) := by
  intro k
  induction k with
  | zero =>
    intro a i ha hai hi _ _
    exact absurd hi (by omega)
  | succ k ih =>
    intro a i ha hai hi hex hall
    have h : a < SHORT_CODE_GENERATION_ATTEMPTS := by omega
    rcases Nat.eq_or_lt_of_le hai with rfl | hlt
    · rw [allocShortCode_miss gen db a h hex]
    · have he : codeExists db (gen a) = true := hall a le_rfl hlt
      rw [allocShortCode_hit gen db a h he]
      exact ih (a + 1) i (by omega) (by omega) hi hex
        (fun j hj hji => hall j (by omega) hji)

/-- The row `POST /api/notes` hands to the store's insert. -/
def createRow (hash : String → String) (newId now : String)
    (body : CreateBody) (shortCode : String) : Note :=
  { id := newId, short_code := shortCode, content := body.content
    password_hash :=
      if truthy body.password then some (hash (body.password.getD "")) else none
    created_at := now, updated_at := now }

/-- Shape of the create handler on a validation failure. -/
lemma postNotes_invalid (gen : Nat → String) (hash : String → String)
    (newId now : String) (checkDb insertDb : Db) (body : CreateBody)
    (hv : createNoteSchemaOk body = false) :
    postNotes gen hash newId now checkDb insertDb body =
      { outcome := .validationError, probes := [], db := insertDb } := by
  unfold postNotes
  simp [hv]

/-- Shape of the create handler on the generated-code path. -/
lemma postNotes_gen_eq (gen : Nat → String) (hash : String → String)
    (newId now : String) (checkDb insertDb : Db) (body : CreateBody)
    (hv : createNoteSchemaOk body = true) (hcc : body.customCode = none) :
    postNotes gen hash newId now checkDb insertDb body =
      (match (allocShortCode gen checkDb 0).1 with
       | none =>
           { outcome := .allocationExhausted
             probes := (allocShortCode gen checkDb 0).2, db := insertDb }
       | some sc =>
           match dbInsert insertDb (createRow hash newId now body sc) with
           | none =>
               { outcome := .storeFailure
                 probes := (allocShortCode gen checkDb 0).2, db := insertDb }
           | some db' =>
               { outcome := .created sc
                 probes := (allocShortCode gen checkDb 0).2, db := db' }) := by
  have htr : truthy body.customCode = false := by simp [hcc, truthy]
  unfold postNotes createRow
  simp only [hv, htr, Bool.not_true, Bool.not_false, Bool.false_eq_true,
    if_false, if_true, ite_true, ite_false]

/-- Shape of the create handler on the custom-code path. -/
lemma postNotes_custom_eq (gen : Nat → String) (hash : String → String)
    (newId now : String) (checkDb insertDb : Db) (body : CreateBody) (cc : String)
    (hv : createNoteSchemaOk body = true) (hcc : body.customCode = some cc)
    (hne : cc ≠ "") :
    postNotes gen hash newId now checkDb insertDb body =
      (if codeExists checkDb cc then
        { outcome := .codeTaken, probes := [cc], db := insertDb }
       else
        match dbInsert insertDb (createRow hash newId now body cc) with
        | none => { outcome := .storeFailure, probes := [cc], db := insertDb }
        | some db' => { outcome := .created cc, probes := [cc], db := db' }) := by
  have htr : truthy body.customCode = true := by simp [hcc, truthy, hne]
  unfold postNotes createRow
  simp only [hv, htr, hcc, Option.getD_some, Bool.not_true, Bool.not_false,
    Bool.false_eq_true, if_false, if_true, ite_true, ite_false]
  have htcc : truthy (some cc) = true := by simp [truthy, hne]
  by_cases he : codeExists checkDb cc = true
  · simp [he, htcc]
  · simp [he, htcc]

/-! ## Claim theorems -/

/-- C9: Every code produced by `generateShortCode` as the Create flow
calls it (default length, i.e. `nanoid(SHORT_CODE.MAX_LENGTH)`) has length
within `[SHORT_CODE.MIN_LENGTH, SHORT_CODE.MAX_LENGTH] = [6,8]`, and every
one of its characters belongs to the class `[A-Za-z0-9_-]` — for every
possible random stream. -/
theorem generateShortCode_length_and_charclass (rnd : Nat → Nat) :
    SHORT_CODE_MIN_LENGTH ≤ (generateShortCode rnd).length ∧
    (generateShortCode rnd).length ≤ SHORT_CODE_MAX_LENGTH ∧
    (generateShortCode rnd).toList.all isCodeChar = true := by
  have hlen : (generateShortCode rnd).length = 8 := by
    simp [generateShortCode, nanoid, String.length, SHORT_CODE_MAX_LENGTH]
  refine ⟨by rw [hlen]; decide, by rw [hlen]; decide, ?_⟩
  rw [List.all_eq_true]
  intro c hc
  have hc' : c ∈ List.map (fun i => urlAlphabet.getD (rnd i % 64) 'a')
      (List.range SHORT_CODE_MAX_LENGTH) := by
    simpa [generateShortCode, nanoid, String.toList] using hc
  rcases List.mem_map.mp hc' with ⟨i, _, rfl⟩
  exact isCodeChar_urlAlphabet_getD (rnd i)

/-- C2: A fetched stored note: when its `password_hash` is present (a
well-formed, hence non-empty, hash), the response is the public note with
`has_password = true` and the content blanked; when its `password_hash` is
null, the response is `toPublicNote` of the row, whose content is the stored
content verbatim. -/
theorem getNote_content_policy (db : Db) (code : String) (note : Note)
    (hcode : code ≠ "") (hfind : dbFind db code = some note) :
    (∀ h, note.password_hash = some h → h ≠ "" →
      getNote db code = .ok { toPublicNote note with content := "" } ∧
      ({ toPublicNote note with content := "" } : PublicNote).has_password = true ∧
      ({ toPublicNote note with content := "" } : PublicNote).content = "") ∧
    (note.password_hash = none →
      getNote db code = .ok (toPublicNote note) ∧
      (toPublicNote note).content = note.content) := by
  constructor
  · intro h hh hne
    have ht : truthy note.password_hash = true := by simp [truthy, hh, hne]
    refine ⟨?_, ?_, rfl⟩
    · unfold getNote
      rw [if_neg hcode, hfind]
      simp [ht]
    · simp [toPublicNote, ht]
  · intro hnone
    have ht : truthy note.password_hash = false := by simp [truthy, hnone]
    refine ⟨?_, rfl⟩
    unfold getNote
    rw [if_neg hcode, hfind]
    simp [ht]

/-- Witness for C2 at a concrete protected and a concrete unprotected note. -/
theorem getNote_content_policy_witness :
    (getNote [{ id := "i1", short_code := "abc123", content := "secret",
                password_hash := some "$2a$10$hash", created_at := "t0",
                updated_at := "t0" }] "abc123"
      = .ok { id := "i1", short_code := "abc123", content := "",
              has_password := true, created_at := "t0", updated_at := "t0" }) ∧
    (getNote [{ id := "i2", short_code := "plain1", content := "hello",
                password_hash := none, created_at := "t0",
                updated_at := "t0" }] "plain1"
      = .ok { id := "i2", short_code := "plain1", content := "hello",
              has_password := false, created_at := "t0", updated_at := "t0" }) := by
  constructor
  · have := (getNote_content_policy
      [{ id := "i1", short_code := "abc123", content := "secret",
         password_hash := some "$2a$10$hash", created_at := "t0", updated_at := "t0" }]
      "abc123"
      { id := "i1", short_code := "abc123", content := "secret",
        password_hash := some "$2a$10$hash", created_at := "t0", updated_at := "t0" }
      (by decide) (by decide)).1 "$2a$10$hash" rfl (by decide)
    exact this.1
  · have := (getNote_content_policy
      [{ id := "i2", short_code := "plain1", content := "hello",
         password_hash := none, created_at := "t0", updated_at := "t0" }]
      "plain1"
      { id := "i2", short_code := "plain1", content := "hello",
        password_hash := none, created_at := "t0", updated_at := "t0" }
      (by decide) (by decide)).2 rfl
    exact this.1

/-- C6: Create without a custom code makes at most
`SHORT_CODE.GENERATION_ATTEMPTS = 5` generation attempts, each probed
against the store; it fails with `AllocationExhausted` (500) exactly when
all 5 candidates collide (never silently inserting a colliding code), and
otherwise the insert uses the first candidate found unused. -/
theorem postNotes_generation_bounded (gen : Nat → String) (hash : String → String)
    (newId now : String) (checkDb insertDb : Db) (body : CreateBody)
    (hv : createNoteSchemaOk body = true) (hcc : body.customCode = none) :
    (postNotes gen hash newId now checkDb insertDb body).probes.length ≤
        SHORT_CODE_GENERATION_ATTEMPTS ∧
    ((postNotes gen hash newId now checkDb insertDb body).outcome
        = .allocationExhausted ↔
      ∀ i, i < SHORT_CODE_GENERATION_ATTEMPTS →
        codeExists checkDb (gen i) = true) ∧
    (∀ i, i < SHORT_CODE_GENERATION_ATTEMPTS →
      codeExists checkDb (gen i) = false →
      (∀ j, j < i → codeExists checkDb (gen j) = true) →
      codeExists insertDb (gen i) = false →
      (postNotes gen hash newId now checkDb insertDb body).outcome
        = .created (gen i)) := by
  have hlen := allocShortCode_probes_le gen checkDb
    SHORT_CODE_GENERATION_ATTEMPTS 0 (by omega)
  have hiff := allocShortCode_none_iff gen checkDb
    SHORT_CODE_GENERATION_ATTEMPTS 0 (by omega)
  rw [postNotes_gen_eq gen hash newId now checkDb insertDb body hv hcc]
  cases hA : (allocShortCode gen checkDb 0).1 with
  | none =>
    simp only [hA]
    refine ⟨by simpa using hlen, ?_, ?_⟩
    · simp only [true_iff]
      intro i hi
      exact (hiff.mp hA) i (Nat.zero_le i) hi
    · intro i hi hex _ _
      have := (hiff.mp hA) i (Nat.zero_le i) hi
      rw [hex] at this
      exact absurd this (by simp)
  | some sc =>
    cases hI : dbInsert insertDb (createRow hash newId now body sc) with
    | none =>
      simp only [hA, hI]
      refine ⟨by simpa using hlen, ?_, ?_⟩
      · constructor
        · intro h
          exact absurd h (by simp)
        · intro hall
          have := hiff.mpr (fun i _ hi => hall i hi)
          rw [hA] at this
          exact absurd this (by simp)
      · intro i hi hex hall hins
        have hfirst := allocShortCode_first gen checkDb
          SHORT_CODE_GENERATION_ATTEMPTS 0 i (by omega) (Nat.zero_le i) hi hex
          (fun j _ hj => hall j hj)
        rw [hA] at hfirst
        injection hfirst with hsc
        rw [hsc] at hI
        unfold dbInsert at hI
        rw [if_neg (by simp [createRow, hins])] at hI
        exact absurd hI (by simp)
    | some db' =>
      simp only [hA, hI]
      refine ⟨by simpa using hlen, ?_, ?_⟩
      · constructor
        · intro h
          exact absurd h (by simp)
        · intro hall
          have := hiff.mpr (fun i _ hi => hall i hi)
          rw [hA] at this
          exact absurd this (by simp)
      · intro i hi hex hall _
        have hfirst := allocShortCode_first gen checkDb
          SHORT_CODE_GENERATION_ATTEMPTS 0 i (by omega) (Nat.zero_le i) hi hex
          (fun j _ hj => hall j hj)
        rw [hA] at hfirst
        injection hfirst with hsc
        simp [hsc]

/-- Witness for C6: with a store already holding the (constant) generated
candidate, all 5 attempts collide and the handler answers
`AllocationExhausted`; with an empty store the first candidate is used. -/
theorem postNotes_generation_bounded_witness :
    (postNotes (fun _ => "aaaaaaaa") (fun _ => "H") "id1" "t1"
        [{ id := "id0", short_code := "aaaaaaaa", content := "c",
           password_hash := none, created_at := "t0", updated_at := "t0" }]
        [{ id := "id0", short_code := "aaaaaaaa", content := "c",
           password_hash := none, created_at := "t0", updated_at := "t0" }]
        { content := "hello", password := none, customCode := none }).outcome
      = .allocationExhausted ∧
    (postNotes (fun _ => "aaaaaaaa") (fun _ => "H") "id1" "t1" [] []
        { content := "hello", password := none, customCode := none }).outcome
      = .created "aaaaaaaa" := by
  constructor
  · exact (postNotes_generation_bounded (fun _ => "aaaaaaaa") (fun _ => "H")
      "id1" "t1"
      [{ id := "id0", short_code := "aaaaaaaa", content := "c",
         password_hash := none, created_at := "t0", updated_at := "t0" }]
      [{ id := "id0", short_code := "aaaaaaaa", content := "c",
         password_hash := none, created_at := "t0", updated_at := "t0" }]
      { content := "hello", password := none, customCode := none }
      (by decide) rfl).2.1.mpr (by decide)
  · exact (postNotes_generation_bounded (fun _ => "aaaaaaaa") (fun _ => "H")
      "id1" "t1" [] []
      { content := "hello", password := none, customCode := none }
      (by decide) rfl).2.2 0 (by decide) (by decide)
      (fun j hj => absurd hj (by omega)) (by decide)

/-- C8: A supplied custom code violating the length bounds `[6,50]` or
the character class `[a-zA-Z0-9_-]` makes the whole request fail validation
(400) with no store probe issued and the store untouched; conversely a
request that gets past validation has its custom code within bounds and in
the character class. -/
theorem postNotes_customCode_validation (gen : Nat → String)
    (hash : String → String) (newId now : String) (checkDb insertDb : Db)
    (body : CreateBody) (cc : String) (hcc : body.customCode = some cc) :
    (validCustomCode (some cc) = false →
      postNotes gen hash newId now checkDb insertDb body =
        { outcome := .validationError, probes := [], db := insertDb }) ∧
    ((postNotes gen hash newId now checkDb insertDb body).outcome
        ≠ .validationError →
      SHORT_CODE_MIN_LENGTH ≤ cc.length ∧
      cc.length ≤ SHORT_CODE_CUSTOM_MAX_LENGTH ∧
      cc.toList.all isCodeChar = true) := by
  constructor
  · intro hbad
    apply postNotes_invalid
    unfold createNoteSchemaOk
    rw [hcc, hbad]
    simp
  · intro hnv
    by_cases hv : createNoteSchemaOk body = true
    · have hok : validCustomCode (some cc) = true := by
        unfold createNoteSchemaOk at hv
        rw [hcc] at hv
        simp only [Bool.and_eq_true] at hv
        exact hv.2
      unfold validCustomCode at hok
      simp only [Bool.and_eq_true, decide_eq_true_eq] at hok
      exact ⟨hok.1.1, hok.1.2, hok.2⟩
    · exact absurd
        (by rw [postNotes_invalid gen hash newId now checkDb insertDb body
              (by simpa using hv)]) hnv

/-- Witness for C8: a 3-character custom code (too short) is rejected with
no probes; an accepted 6-character code is within bounds. -/
theorem postNotes_customCode_validation_witness :
    (postNotes (fun _ => "aaaaaaaa") (fun _ => "H") "id1" "t1" [] []
        { content := "hello", password := none, customCode := some "ab!" } =
      { outcome := .validationError, probes := [], db := [] }) ∧
    (SHORT_CODE_MIN_LENGTH ≤ "abc123".length ∧
      "abc123".length ≤ SHORT_CODE_CUSTOM_MAX_LENGTH ∧
      "abc123".toList.all isCodeChar = true) := by
  constructor
  · exact (postNotes_customCode_validation (fun _ => "aaaaaaaa") (fun _ => "H")
      "id1" "t1" [] []
      { content := "hello", password := none, customCode := some "ab!" }
      "ab!" rfl).1 (by decide)
  · exact (postNotes_customCode_validation (fun _ => "aaaaaaaa") (fun _ => "H")
      "id1" "t1" [] []
      { content := "hello", password := none, customCode := some "abc123" }
      "abc123" rfl).2 (by decide)

/-- C4 counterexample: In the check-then-insert race — the probe sees
the custom code free, a concurrent writer then takes it, and the insert hits
the store's uniqueness violation — the handler answers the generic store
failure ('Failed to create note', 500), not the `CodeTaken` (409) condition
the claim asserts. -/
theorem postNotes_race_not_codeTaken :
    (postNotes (fun _ => "aaaaaaaa") (fun _ => "H") "id1" "t1" []
        [{ id := "id0", short_code := "mycode", content := "prior",
           password_hash := none, created_at := "t0", updated_at := "t0" }]
        { content := "hello", password := none, customCode := some "mycode" })
      = { outcome := .storeFailure, probes := ["mycode"],
          db := [{ id := "id0", short_code := "mycode", content := "prior",
                   password_hash := none, created_at := "t0",
                   updated_at := "t0" }] } ∧
    (postNotes (fun _ => "aaaaaaaa") (fun _ => "H") "id1" "t1" []
        [{ id := "id0", short_code := "mycode", content := "prior",
           password_hash := none, created_at := "t0", updated_at := "t0" }]
        { content := "hello", password := none, customCode := some "mycode" }).outcome
      ≠ .codeTaken := by
  constructor
  · decide
  · decide

/-- C4 amended: When the custom-code availability probe passes but the
insert runs against a store that meanwhile holds the code, the handler
catches the insert error and returns the generic store failure (500,
'Failed to create note') — it does not crash, and it does not translate the
uniqueness violation into the 409 `CodeTaken` condition. -/
theorem postNotes_race_storeFailure (gen : Nat → String)
    (hash : String → String) (newId now : String) (checkDb insertDb : Db)
    (body : CreateBody) (cc : String)
    (hv : createNoteSchemaOk body = true) (hcc : body.customCode = some cc)
    (hfree : codeExists checkDb cc = false)
    (htaken : codeExists insertDb cc = true) :
    postNotes gen hash newId now checkDb insertDb body =
      { outcome := .storeFailure, probes := [cc], db := insertDb } := by
  have hne : cc ≠ "" := by
    intro h
    have hok : validCustomCode (some cc) = true := by
      unfold createNoteSchemaOk at hv
      rw [hcc] at hv
      simp only [Bool.and_eq_true] at hv
      exact hv.2
    rw [h] at hok
    exact absurd hok (by decide)
  rw [postNotes_custom_eq gen hash newId now checkDb insertDb body cc hv hcc hne]
  rw [if_neg (by simp [hfree])]
  have hins : dbInsert insertDb (createRow hash newId now body cc) = none := by
    unfold dbInsert
    rw [if_pos (by simpa [createRow] using htaken)]
  rw [hins]

/-- Witness for C4's amended theorem at the race input of the
counterexample. -/
theorem postNotes_race_storeFailure_witness :
    postNotes (fun _ => "aaaaaaaa") (fun _ => "H") "id1" "t1" []
        [{ id := "id0", short_code := "mycode", content := "prior",
           password_hash := none, created_at := "t0", updated_at := "t0" }]
        { content := "hello", password := none, customCode := some "mycode" }
      = { outcome := .storeFailure, probes := ["mycode"],
          db := [{ id := "id0", short_code := "mycode", content := "prior",
                   password_hash := none, created_at := "t0",
                   updated_at := "t0" }] } :=
  postNotes_race_storeFailure (fun _ => "aaaaaaaa") (fun _ => "H") "id1" "t1"
    []
    [{ id := "id0", short_code := "mycode", content := "prior",
       password_hash := none, created_at := "t0", updated_at := "t0" }]
    { content := "hello", password := none, customCode := some "mycode" }
    "mycode" (by decide) rfl (by decide) (by decide)

/-- After a successful insert of an unprotected note, fetching its code
returns the stored content verbatim. -/
lemma getNote_after_insert (hash : String → String) (newId now : String)
    (body : CreateBody) (sc : String) (db db2 : Db)
    (hnp : body.password = none) (hsc : sc ≠ "")
    (hI : dbInsert db (createRow hash newId now body sc) = some db2) :
    getNote db2 sc = .ok (toPublicNote (createRow hash newId now body sc)) ∧
    (toPublicNote (createRow hash newId now body sc)).content = body.content := by
  have hfind := dbFind_dbInsert_self hI
  have hrow_sc : (createRow hash newId now body sc).short_code = sc := rfl
  rw [hrow_sc] at hfind
  have hph : (createRow hash newId now body sc).password_hash = none := by
    simp [createRow, hnp, truthy]
  constructor
  · unfold getNote
    rw [if_neg hsc, hfind]
    simp [hph, truthy]
  · rfl

/-- C7: Round-trip: a Create without a password that succeeds with short
code `sc`, followed immediately by a Fetch of `sc` (no intervening update,
sequential store), returns content identical to the content passed to
Create. -/
theorem create_then_fetch_roundtrip (gen : Nat → String)
    (hash : String → String) (newId now : String) (db : Db)
    (body : CreateBody) (sc : String)
    (hnp : body.password = none) (hsc : sc ≠ "")
    (hout : (postNotes gen hash newId now db db body).outcome = .created sc) :
    ∃ pn, getNote (postNotes gen hash newId now db db body).db sc = .ok pn ∧
      pn.content = body.content := by
  by_cases hv : createNoteSchemaOk body = true
  · cases hcc : body.customCode with
    | none =>
      rw [postNotes_gen_eq gen hash newId now db db body hv hcc] at hout ⊢
      split at hout
      · exact absurd hout (by simp)
      · next c heq =>
          split at hout
          · exact absurd hout (by simp)
          · next db2 heq2 =>
              have hcs : c = sc := by simpa using hout
              subst hcs
              simp only [heq, heq2]
              exact ⟨toPublicNote (createRow hash newId now body c),
                getNote_after_insert hash newId now body c db db2 hnp hsc heq2⟩
    | some cc =>
      have hne : cc ≠ "" := by
        intro h
        have hok : validCustomCode (some cc) = true := by
          unfold createNoteSchemaOk at hv
          rw [hcc] at hv
          simp only [Bool.and_eq_true] at hv
          exact hv.2
        rw [h] at hok
        exact absurd hok (by decide)
      rw [postNotes_custom_eq gen hash newId now db db body cc hv hcc hne]
        at hout ⊢
      by_cases he : codeExists db cc = true
      · rw [if_pos he] at hout
        exact absurd hout (by simp)
      · rw [if_neg he] at hout ⊢
        split at hout
        · exact absurd hout (by simp)
        · next db2 heq2 =>
            have hcs : cc = sc := by simpa using hout
            subst hcs
            simp only [heq2]
            exact ⟨toPublicNote (createRow hash newId now body cc),
              getNote_after_insert hash newId now body cc db db2 hnp hsc heq2⟩
  · rw [postNotes_invalid gen hash newId now db db body (by simpa using hv)]
      at hout
    exact absurd hout (by simp)

/-- Witness for C7: create `"Hello world"` under custom code `"abc123"` on an
empty store, then fetch it. -/
theorem create_then_fetch_roundtrip_witness :
    ∃ pn, getNote (postNotes (fun _ => "aaaaaaaa") (fun _ => "H") "id1" "t1"
        [] [] { content := "Hello world", password := none,
                customCode := some "abc123" }).db "abc123" = .ok pn ∧
      pn.content = "Hello world" :=
  create_then_fetch_roundtrip (fun _ => "aaaaaaaa") (fun _ => "H") "id1" "t1"
    [] { content := "Hello world", password := none,
         customCode := some "abc123" }
    "abc123" rfl (by decide) (by decide)

/-- Inversion of a successful `PATCH`: the row existed, and the response and
store are built from the updated row (content overwritten when supplied, the
hash chosen by the handler's `password && !existingNote.password_hash`
ternary, `updated_at` refreshed). -/
lemma patchNote_ok_inv (verify : String → String → Bool)
    (hash : String → String) (now : String) (db : Db) (code : String)
    (body : UpdateBody) (pn : PublicNote) (db' : Db)
    (hok : patchNote verify hash now db code body = (.ok pn, db')) :
    ∃ existing, dbFind db code = some existing ∧ code ≠ "" ∧
      pn = toPublicNote
        { existing with
            content := body.content.getD existing.content
            password_hash :=
              if truthy body.password && !truthy existing.password_hash then
                some (hash (body.password.getD ""))
              else existing.password_hash
            updated_at := now } ∧
      db' = dbUpdate db code
        { existing with
            content := body.content.getD existing.content
            password_hash :=
              if truthy body.password && !truthy existing.password_hash then
                some (hash (body.password.getD ""))
              else existing.password_hash
            updated_at := now } := by
  unfold patchNote at hok
  by_cases hc : code = ""
  · rw [if_pos hc] at hok
    exact absurd hok (by simp)
  · rw [if_neg hc] at hok
    by_cases hvb : (!updateNoteSchemaOk body) = true
    · rw [if_pos hvb] at hok
      exact absurd hok (by simp)
    · rw [if_neg hvb] at hok
      cases hf : dbFind db code with
      | none =>
          simp only [hf] at hok
          exact absurd hok (by simp)
      | some existing =>
          simp only [hf] at hok
          by_cases hg : (truthy existing.password_hash && truthy body.password
              && !verify (body.password.getD "")
                (existing.password_hash.getD "")) = true
          · rw [if_pos hg] at hok
            exact absurd hok (by simp)
          · rw [if_neg hg] at hok
            refine ⟨existing, rfl, hc, ?_, ?_⟩
            · have h1 := congrArg Prod.fst hok
              simp only [UpdateOutcome.ok.injEq] at h1
              exact h1.symm
            · have h2 := congrArg Prod.snd hok
              exact h2.symm

/-- C3: A successful `PATCH` on a note whose stored `password_hash` was
already present leaves that hash byte-for-byte identical in the store — the
supplied password is neither hashed into a replacement (no rotation) nor
able to clear it. -/
theorem patchNote_preserves_protected_hash (verify : String → String → Bool)
    (hash : String → String) (now : String) (db : Db) (code : String)
    (body : UpdateBody) (existing : Note) (h : String) (pn : PublicNote)
    (db' : Db)
    (hfind : dbFind db code = some existing)
    (hhash : existing.password_hash = some h) (hne : h ≠ "")
    (hok : patchNote verify hash now db code body = (.ok pn, db')) :
    ∃ n', dbFind db' code = some n' ∧ n'.password_hash = some h := by
  obtain ⟨ex2, hf2, _, _, hdb⟩ :=
    patchNote_ok_inv verify hash now db code body pn db' hok
  rw [hfind] at hf2
  injection hf2 with he
  subst he
  subst hdb
  have htr : truthy existing.password_hash = true := by
    simp [truthy, hhash, hne]
  have hpw : (if truthy body.password && !truthy existing.password_hash then
      some (hash (body.password.getD ""))
    else existing.password_hash) = some h := by
    rw [htr]
    simp [hhash]
  have hsc : existing.short_code = code := dbFind_short_code hfind
  refine ⟨{ existing with
      content := body.content.getD existing.content
      password_hash :=
        if truthy body.password && !truthy existing.password_hash then
          some (hash (body.password.getD ""))
        else existing.password_hash
      updated_at := now },
    dbFind_dbUpdate_self hfind hsc, hpw⟩

/-- Witness for C3: updating a protected note while supplying the (accepted)
password `"pw1234"` keeps the stored hash `"$2a$10$old"` unchanged. -/
theorem patchNote_preserves_protected_hash_witness :
    ∃ n', dbFind
        (patchNote (fun _ _ => true) (fun _ => "NEWHASH") "t1"
          [{ id := "id0", short_code := "code01", content := "old",
             password_hash := some "$2a$10$old", created_at := "t0",
             updated_at := "t0" }]
          "code01" { content := some "new", password := some "pw1234" }).2
        "code01" = some n' ∧
      n'.password_hash = some "$2a$10$old" :=
  patchNote_preserves_protected_hash (fun _ _ => true) (fun _ => "NEWHASH")
    "t1"
    [{ id := "id0", short_code := "code01", content := "old",
       password_hash := some "$2a$10$old", created_at := "t0",
       updated_at := "t0" }]
    "code01" { content := some "new", password := some "pw1234" }
    { id := "id0", short_code := "code01", content := "old",
      password_hash := some "$2a$10$old", created_at := "t0",
      updated_at := "t0" }
    "$2a$10$old"
    { id := "id0", short_code := "code01", content := "new",
      has_password := true, created_at := "t0", updated_at := "t1" }
    [{ id := "id0", short_code := "code01", content := "new",
       password_hash := some "$2a$10$old", created_at := "t0",
       updated_at := "t1" }]
    (by decide) (by decide) (by decide) (by decide)

/-- C1 evaluation at the failing input: A `PATCH` on a
password-protected note whose body supplies new content but *no* password
field does not fail with 401: the gate
`if (existingNote.password_hash && password)` is skipped entirely, the note
is updated and 200 returned — even under a verifier that rejects every
password. The claim (and the spec) require `Unauthorized` with the note
unmodified here. -/
theorem patchNote_missing_password_bypasses_gate :
    patchNote (fun _ _ => false) (fun _ => "H") "t1"
        [{ id := "id0", short_code := "secret1", content := "original",
           password_hash := some "$2a$10$hash", created_at := "t0",
           updated_at := "t0" }]
        "secret1" { content := some "x", password := none }
      = (.ok { id := "id0", short_code := "secret1", content := "x",
               has_password := true, created_at := "t0", updated_at := "t1" },
         [{ id := "id0", short_code := "secret1", content := "x",
            password_hash := some "$2a$10$hash", created_at := "t0",
            updated_at := "t1" }]) ∧
    (patchNote (fun _ _ => false) (fun _ => "H") "t1"
        [{ id := "id0", short_code := "secret1", content := "original",
           password_hash := some "$2a$10$hash", created_at := "t0",
           updated_at := "t0" }]
        "secret1" { content := some "x", password := none }).1
      ≠ .unauthorized := by
  constructor
  · decide
  · decide

/-- C5: `verifyPassword` turns any internal `bcrypt.compare` error into
the plain verification failure `false` (it never surfaces an error), so to a
caller of `POST /api/verify` a malformed-hash run and a wrong-password run
are indistinguishable: both produce the `{valid:false}`/401 response after
the fixed delay. -/
theorem verifyPassword_error_opacity
    (c1 c2 : String → String → BcryptOutcome) (db1 db2 : Db)
    (b1 b2 : VerifyBody) (n1 n2 : Note) (h1 h2 : String)
    (hv1 : verifyPasswordSchemaOk b1 = true)
    (hv2 : verifyPasswordSchemaOk b2 = true)
    (hf1 : dbFind db1 b1.shortCode = some n1)
    (hf2 : dbFind db2 b2.shortCode = some n2)
    (hh1 : n1.password_hash = some h1) (hne1 : h1 ≠ "")
    (hh2 : n2.password_hash = some h2) (hne2 : h2 ≠ "")
    (herr : c1 b1.password h1 = .err)
    (hwrong : c2 b2.password h2 = .ok false) :
    verifyPassword c1 b1.password h1 = false ∧
    postVerify c1 db1 b1 = .invalid ∧
    postVerify c2 db2 b2 = .invalid := by
  have hvp1 : verifyPassword c1 b1.password h1 = false := by
    unfold verifyPassword
    rw [herr]
  have hvp2 : verifyPassword c2 b2.password h2 = false := by
    unfold verifyPassword
    rw [hwrong]
  have htr1 : truthy n1.password_hash = true := by simp [truthy, hh1, hne1]
  have htr2 : truthy n2.password_hash = true := by simp [truthy, hh2, hne2]
  refine ⟨hvp1, ?_, ?_⟩
  · unfold postVerify
    simp [truthy, hv1, hf1, hh1, hne1, hvp1]
  · unfold postVerify
    simp [truthy, hv2, hf2, hh2, hne2, hvp2]

/-- Witness for C5: a comparator that throws (malformed stored hash) and a
comparator that answers `false` (wrong password) yield the same 401 result
at concrete inputs. -/
theorem verifyPassword_error_opacity_witness :
    verifyPassword (fun _ _ => .err) "1234" "not-a-bcrypt-hash" = false ∧
    postVerify (fun _ _ => .err)
      [{ id := "i1", short_code := "abc123", content := "s",
         password_hash := some "not-a-bcrypt-hash", created_at := "t0",
         updated_at := "t0" }]
      { shortCode := "abc123", password := "1234" } = .invalid ∧
    postVerify (fun _ _ => .ok false)
      [{ id := "i1", short_code := "abc123", content := "s",
         password_hash := some "$2a$10$good", created_at := "t0",
         updated_at := "t0" }]
      { shortCode := "abc123", password := "1234" } = .invalid :=
  verifyPassword_error_opacity (fun _ _ => .err) (fun _ _ => .ok false)
    [{ id := "i1", short_code := "abc123", content := "s",
       password_hash := some "not-a-bcrypt-hash", created_at := "t0",
       updated_at := "t0" }]
    [{ id := "i1", short_code := "abc123", content := "s",
       password_hash := some "$2a$10$good", created_at := "t0",
       updated_at := "t0" }]
    { shortCode := "abc123", password := "1234" }
    { shortCode := "abc123", password := "1234" }
    { id := "i1", short_code := "abc123", content := "s",
      password_hash := some "not-a-bcrypt-hash", created_at := "t0",
      updated_at := "t0" }
    { id := "i1", short_code := "abc123", content := "s",
      password_hash := some "$2a$10$good", created_at := "t0",
      updated_at := "t0" }
    "not-a-bcrypt-hash" "$2a$10$good"
    (by decide) (by decide) (by decide) (by decide) (by decide) (by decide)
    (by decide) (by decide) rfl rfl

/-- C10: No note payload a handler returns carries the stored
`password_hash`: `toPublicNote` exposes only the derived boolean
(`false` for a null hash, `true` for a stored well-formed hash) and is
oblivious to the hash value itself, and every note payload produced by
Fetch, Update and VerifyPassword is in the image of `toPublicNote`. -/
theorem toPublicNote_no_hash_leak :
    (∀ n : Note, n.password_hash = none →
      (toPublicNote n).has_password = false) ∧
    (∀ (n : Note) (h : String), n.password_hash = some h → h ≠ "" →
      (toPublicNote n).has_password = true) ∧
    (∀ (n : Note) (h h' : String), h ≠ "" → h' ≠ "" →
      toPublicNote { n with password_hash := some h }
        = toPublicNote { n with password_hash := some h' }) ∧
    (∀ (db : Db) (code : String) (pn : PublicNote),
      getNote db code = .ok pn →
      ∃ n, dbFind db code = some n ∧
        (pn = toPublicNote n ∨ pn = { toPublicNote n with content := "" })) ∧
    (∀ (verify : String → String → Bool) (hash : String → String)
        (now : String) (db : Db) (code : String) (body : UpdateBody)
        (pn : PublicNote) (db' : Db),
      patchNote verify hash now db code body = (.ok pn, db') →
      ∃ n, pn = toPublicNote n) ∧
    (∀ (compare : String → String → BcryptOutcome) (db : Db)
        (b : VerifyBody) (pn : PublicNote),
      postVerify compare db b = .ok pn →
      ∃ n, dbFind db b.shortCode = some n ∧ pn = toPublicNote n) := by
  refine ⟨?_, ?_, ?_, ?_, ?_, ?_⟩
  · intro n hn
    simp [toPublicNote, truthy, hn]
  · intro n h hn hne
    simp [toPublicNote, truthy, hn, hne]
  · intro n h h' hne hne'
    simp [toPublicNote, truthy, hne, hne']
  · intro db code pn hok
    unfold getNote at hok
    by_cases hc : code = ""
    · rw [if_pos hc] at hok
      exact absurd hok (by simp)
    · rw [if_neg hc] at hok
      cases hf : dbFind db code with
      | none =>
          simp only [hf] at hok
          exact absurd hok (by simp)
      | some n =>
          simp only [hf] at hok
          by_cases ht : truthy n.password_hash = true
          · rw [if_pos ht] at hok
            injection hok with hpn
            exact ⟨n, rfl, Or.inr hpn.symm⟩
          · rw [if_neg ht] at hok
            injection hok with hpn
            exact ⟨n, rfl, Or.inl hpn.symm⟩
  · intro verify hash now db code body pn db' hok
    obtain ⟨existing, _, _, hpn, _⟩ :=
      patchNote_ok_inv verify hash now db code body pn db' hok
    exact ⟨_, hpn⟩
  · intro compare db b pn hok
    unfold postVerify at hok
    by_cases hv : (!verifyPasswordSchemaOk b) = true
    · rw [if_pos hv] at hok
      exact absurd hok (by simp)
    · rw [if_neg hv] at hok
      cases hf : dbFind db b.shortCode with
      | none =>
          simp only [hf] at hok
          exact absurd hok (by simp)
      | some n =>
          simp only [hf] at hok
          by_cases ht : (!truthy n.password_hash) = true
          · rw [if_pos ht] at hok
            exact absurd hok (by simp)
          · rw [if_neg ht] at hok
            by_cases hvp : (!verifyPassword compare b.password
                (n.password_hash.getD "")) = true
            · rw [if_pos hvp] at hok
              exact absurd hok (by simp)
            · rw [if_neg hvp] at hok
              injection hok with hpn
              exact ⟨n, rfl, hpn.symm⟩

/-- Witness for C10: `toPublicNote` gives the same public payload for two
different stored hash values. -/
theorem toPublicNote_no_hash_leak_witness :
    toPublicNote { id := "i", short_code := "c", content := "x",
                   password_hash := some "HASH-A", created_at := "t",
                   updated_at := "t" }
      = toPublicNote { id := "i", short_code := "c", content := "x",
                       password_hash := some "HASH-B", created_at := "t",
                       updated_at := "t" } :=
  toPublicNote_no_hash_leak.2.2.1
    { id := "i", short_code := "c", content := "x", password_hash := none,
      created_at := "t", updated_at := "t" }
    "HASH-A" "HASH-B" (by decide) (by decide)

end KloudNotes
